import Mathlib

/-!
# Bao I/O dispatcher: hypercall transport and request data model

A shallow embedding of `io_dispatcher/bao.h` and `io_dispatcher/hypercall.h`.

* Unsigned machine integers are natural numbers and every C conversion to a `w`-bit unsigned
  type is an explicit reduction modulo `2 ^ w`; an `int` is an integer in
  `-2 ^ 31 ... 2 ^ 31 - 1`.
* The hypervisor is an arbitrary function from the registers named as input operands of the
  `hvc` / `ecall` statement to the registers named as its output operands.
* A C function that writes through `request` returns the updated structure next to its value.
-/

namespace Bao

/-! ## Constants of `bao.h` and `hypercall.h` -/

def BAO_IO_WRITE : Nat := 0x0
def BAO_IO_READ : Nat := 0x1
def BAO_IO_ASK : Nat := 0x2
def BAO_IO_NOTIFY : Nat := 0x3

def BAO_IO_REQUEST_MAX : Nat := 64

def BAO_IOEVENTFD_FLAG_DATAMATCH : Nat := 1 <<< 1
def BAO_IOEVENTFD_FLAG_DEASSIGN : Nat := 1 <<< 2

/-- Remote I/O hypercall identifier. -/
def REMIO_HC_ID : Nat := 0x2

/-! ## Integer conversions -/

/-- Conversion to `u64`. -/
def to_u64 (n : Nat) : Nat := n % 2 ^ 64

/-- Conversion to `u32`. -/
def to_u32 (n : Nat) : Nat := n % 2 ^ 32

/-- Conversion to `int`: the value is reduced modulo `2 ^ 32` into the range
`-2 ^ 31 ... 2 ^ 31 - 1`. -/
def to_int (n : Nat) : Int :=
  if n % 2 ^ 32 < 2 ^ 31 then (n % 2 ^ 32 : Nat) else ((n % 2 ^ 32 : Nat) : Int) - 2 ^ 32

/-- Bit pattern of an `int` held in a register: its value modulo `2 ^ 32`. -/
def int_bits (i : Int) : Nat := (i % 2 ^ 32).toNat

/-- Conversion of an `int` to `u64`: its value modulo `2 ^ 64`. -/
def int_to_u64 (i : Int) : Nat := (i % 2 ^ 64).toNat

/-! ## Structures -/

/-- The `struct bao_virtio_request` of `bao.h`; every field is a `__u64`. -/
structure bao_virtio_request where
  dm_id : Nat
  addr : Nat
  op : Nat
  value : Nat
  access_width : Nat
  request_id : Nat
  deriving DecidableEq

/-- Every field of the request holds a `__u64` value. -/
def bao_virtio_request.wf (r : bao_virtio_request) : Prop :=
  r.dm_id < 2 ^ 64 ∧ r.addr < 2 ^ 64 ∧ r.op < 2 ^ 64 ∧ r.value < 2 ^ 64 ∧
    r.access_width < 2 ^ 64 ∧ r.request_id < 2 ^ 64

instance (r : bao_virtio_request) : Decidable r.wf := by
  unfold bao_virtio_request.wf
  infer_instance

/-- The `struct remio_hypercall_ret` of `hypercall.h`; every field is a `u64`. -/
structure remio_hypercall_ret where
  hyp_ret : Nat
  remio_hyp_ret : Nat
  pending_requests : Nat
  deriving DecidableEq

/-! ## The `hvc` interface shared by `CONFIG_ARM64` and `CONFIG_ARM` -/

/-- Input operands of the `hvc 0` statement: `"r"(x0) ... "r"(x5)`. -/
structure HvcArgs where
  x0 : Nat
  x1 : Nat
  x2 : Nat
  x3 : Nat
  x4 : Nat
  x5 : Nat
  deriving DecidableEq

/-- Output operands of the `hvc 0` statement: `"=r"(x0) ... "=r"(x6)`, as the hypervisor
leaves them. -/
structure HvcRegs where
  x0 : Nat
  x1 : Nat
  x2 : Nat
  x3 : Nat
  x4 : Nat
  x5 : Nat
  x6 : Nat
  deriving DecidableEq

/-- Every output register holds a `w`-bit value. -/
def HvcRegs.fits (w : Nat) (o : HvcRegs) : Prop :=
  o.x0 < 2 ^ w ∧ o.x1 < 2 ^ w ∧ o.x2 < 2 ^ w ∧ o.x3 < 2 ^ w ∧ o.x4 < 2 ^ w ∧
    o.x5 < 2 ^ w ∧ o.x6 < 2 ^ w

instance (w : Nat) (o : HvcRegs) : Decidable (o.fits w) := by
  unfold HvcRegs.fits
  infer_instance

/-! ## `CONFIG_ARM64`

`fid` stands for `ARM_SMCCC_CALL_VAL(ARM_SMCCC_FAST_CALL, ARM_SMCCC_SMC_64,
ARM_SMCCC_OWNER_VENDOR_HYP, REMIO_HC_ID)`, a macro of `linux/arm-smccc.h`. -/

namespace CONFIG_ARM64

/-- The registers at the `hvc 0` instruction (`hypercall.h`, lines 47-53). -/
def hvc_args (fid : Nat) (request : bao_virtio_request) : HvcArgs :=
  { x0 := int_bits (to_int fid)
    x1 := to_u64 request.dm_id
    x2 := to_u64 request.addr
    x3 := to_u64 request.op
    x4 := to_u64 request.value
    x5 := to_u64 request.request_id }

/-- The function `asm_bao_hypercall_remio` under `CONFIG_ARM64` (`hypercall.h`, lines 44-70).
`x0` is a `register int`, `x1 ... x6` are `register u64`. -/
def asm_bao_hypercall_remio (fid : Nat) (hyp : HvcArgs → HvcRegs)
    (request : bao_virtio_request) : remio_hypercall_ret × bao_virtio_request :=
  let out := hyp (hvc_args fid request)
  let x0 := to_int out.x0
  let x1 := to_u64 out.x1
  let x2 := to_u64 out.x2
  let x3 := to_u64 out.x3
  let x4 := to_u64 out.x4
  let x5 := to_u64 out.x5
  let x6 := to_u64 out.x6
  let ret : remio_hypercall_ret :=
    { hyp_ret := 0
      remio_hyp_ret := int_to_u64 x0
      pending_requests := x6 }
  (ret, { request with
            addr := x1
            op := x2
            value := x3
            access_width := x4
            request_id := x5 })

/-- The function `bao_hypercall_remio` (`hypercall.h`, lines 145-148). -/
def bao_hypercall_remio (fid : Nat) (hyp : HvcArgs → HvcRegs)
    (request : bao_virtio_request) : remio_hypercall_ret × bao_virtio_request :=
  asm_bao_hypercall_remio fid hyp request

end CONFIG_ARM64

/-! ## `CONFIG_ARM` -/

namespace CONFIG_ARM

/-- The registers at the `hvc 0` instruction (`hypercall.h`, lines 80-86). -/
def hvc_args (fid : Nat) (request : bao_virtio_request) : HvcArgs :=
  { x0 := int_bits (to_int fid)
    x1 := to_u32 request.dm_id
    x2 := to_u32 request.addr
    x3 := to_u32 request.op
    x4 := to_u32 request.value
    x5 := to_u32 request.request_id }

/-- The function `asm_bao_hypercall_remio` under `CONFIG_ARM` (`hypercall.h`, lines 77-103).
`x0` is a `register int`, `x1 ... x6` are `register u32`; the stores into the `u64` fields
zero-extend. -/
def asm_bao_hypercall_remio (fid : Nat) (hyp : HvcArgs → HvcRegs)
    (request : bao_virtio_request) : remio_hypercall_ret × bao_virtio_request :=
  let out := hyp (hvc_args fid request)
  let x0 := to_int out.x0
  let x1 := to_u32 out.x1
  let x2 := to_u32 out.x2
  let x3 := to_u32 out.x3
  let x4 := to_u32 out.x4
  let x5 := to_u32 out.x5
  let x6 := to_u32 out.x6
  let ret : remio_hypercall_ret :=
    { hyp_ret := 0
      remio_hyp_ret := int_to_u64 x0
      pending_requests := to_u64 x6 }
  (ret, { request with
            addr := to_u64 x1
            op := to_u64 x2
            value := to_u64 x3
            access_width := to_u64 x4
            request_id := to_u64 x5 })

/-- The function `bao_hypercall_remio` (`hypercall.h`, lines 145-148). -/
def bao_hypercall_remio (fid : Nat) (hyp : HvcArgs → HvcRegs)
    (request : bao_virtio_request) : remio_hypercall_ret × bao_virtio_request :=
  asm_bao_hypercall_remio fid hyp request

end CONFIG_ARM

/-! ## `CONFIG_RISCV`

`uintptr_t` is as wide as a register: 32 bits on RV32 and 64 bits on RV64. -/

/-- The two register widths of the RISC-V kernel. -/
inductive Xlen where
  | rv32
  | rv64
  deriving DecidableEq

/-- Width of `uintptr_t` in bits. -/
def Xlen.bits : Xlen → Nat
  | .rv32 => 32
  | .rv64 => 64

/-- Conversion to `uintptr_t`. -/
def to_uintptr (xl : Xlen) (n : Nat) : Nat := n % 2 ^ xl.bits

/-- Operands of the `ecall` statement, each both input and output: `"+r"(a0) ... "+r"(a7)`. -/
structure EcallRegs where
  a0 : Nat
  a1 : Nat
  a2 : Nat
  a3 : Nat
  a4 : Nat
  a5 : Nat
  a6 : Nat
  a7 : Nat
  deriving DecidableEq

/-- Every register holds a `w`-bit value. -/
def EcallRegs.fits (w : Nat) (o : EcallRegs) : Prop :=
  o.a0 < 2 ^ w ∧ o.a1 < 2 ^ w ∧ o.a2 < 2 ^ w ∧ o.a3 < 2 ^ w ∧ o.a4 < 2 ^ w ∧
    o.a5 < 2 ^ w ∧ o.a6 < 2 ^ w ∧ o.a7 < 2 ^ w

instance (w : Nat) (o : EcallRegs) : Decidable (o.fits w) := by
  unfold EcallRegs.fits
  infer_instance

namespace CONFIG_RISCV

/-- The registers at the `ecall` instruction (`hypercall.h`, lines 113-120). -/
def ecall_args (xl : Xlen) (request : bao_virtio_request) : EcallRegs :=
  { a0 := to_uintptr xl request.dm_id
    a1 := to_uintptr xl request.addr
    a2 := to_uintptr xl request.op
    a3 := to_uintptr xl request.value
    a4 := to_uintptr xl request.request_id
    a5 := to_uintptr xl 0
    a6 := to_uintptr xl REMIO_HC_ID
    a7 := to_uintptr xl 0x08000ba0 }

/-- The function `asm_bao_hypercall_remio` under `CONFIG_RISCV` (`hypercall.h`,
lines 110-137). `a0 ... a7` are `register uintptr_t`; the stores into the `u64` fields
zero-extend. -/
def asm_bao_hypercall_remio (xl : Xlen) (hyp : EcallRegs → EcallRegs)
    (request : bao_virtio_request) : remio_hypercall_ret × bao_virtio_request :=
  let out := hyp (ecall_args xl request)
  let a0 := to_uintptr xl out.a0
  let a1 := to_uintptr xl out.a1
  let a2 := to_uintptr xl out.a2
  let a3 := to_uintptr xl out.a3
  let a4 := to_uintptr xl out.a4
  let a5 := to_uintptr xl out.a5
  let a6 := to_uintptr xl out.a6
  let a7 := to_uintptr xl out.a7
  let ret : remio_hypercall_ret :=
    { hyp_ret := to_u64 a0
      remio_hyp_ret := to_u64 a1
      pending_requests := to_u64 a7 }
  (ret, { request with
            addr := to_u64 a2
            op := to_u64 a3
            value := to_u64 a4
            access_width := to_u64 a5
            request_id := to_u64 a6 })

/-- The function `bao_hypercall_remio` (`hypercall.h`, lines 145-148). -/
def bao_hypercall_remio (xl : Xlen) (hyp : EcallRegs → EcallRegs)
    (request : bao_virtio_request) : remio_hypercall_ret × bao_virtio_request :=
  asm_bao_hypercall_remio xl hyp request

end CONFIG_RISCV

/-- The five fields `asm_bao_hypercall_remio` stores into: `addr`, `op`, `value`,
`access_width`, `request_id`. -/
def bao_virtio_request.written (r : bao_virtio_request) : Nat × Nat × Nat × Nat × Nat :=
  (r.addr, r.op, r.value, r.access_width, r.request_id)

/-! ## The `flags` word of `struct bao_ioeventfd` -/

/-- The `flags` field of `struct bao_ioeventfd`, a `__u32` documented in `bao.h` as the
"Logical-OR of BAO_IOEVENTFD_FLAG_*". -/
def ioeventfd_flags (datamatch deassign : Bool) : Nat :=
  to_u32 ((if datamatch then BAO_IOEVENTFD_FLAG_DATAMATCH else 0) |||
    (if deassign then BAO_IOEVENTFD_FLAG_DEASSIGN else 0))

/-- The C test `flags & flag`, true when non-zero. -/
def flag_test (flags flag : Nat) : Bool := (flags &&& flag) != 0

/-- The C statement `flags |= flag` on a `__u32`. -/
def flag_set (flags flag : Nat) : Nat := to_u32 (flags ||| flag)

/-- The C statement `flags &= ~flag` on a `__u32`; `~flag` is the 32-bit complement. -/
def flag_clear (flags flag : Nat) : Nat := to_u32 (flags &&& (2 ^ 32 - 1 - flag))

/-! ## The request list of an I/O client

`bao.h` declares `bao_io_client_push_request` and `bao_io_client_pop_request`; their bodies
are in a source file that is not part of this development. -/

/-- Modelled from the spec: the I/O client of section 3, reduced to the members of
`struct bao_io_client` that the request list operations can observe; `virtio_requests` is the
ordered request queue, oldest request first. The body of the list operations is missing. -/
structure bao_io_client where
  is_control : Bool
  flags : Nat
  virtio_requests : List bao_virtio_request
  deriving DecidableEq

/-- Modelled from the spec: `push_request(req)` "enqueues at the tail" and never drops an
entry (section 4.2); the C declaration returns `void`, and keeping the queue within
`BAO_IO_REQUEST_MAX` is the dispatcher's part, which stalls instead of pushing. The body of
`bao_io_client_push_request` is missing. -/
def bao_io_client_push_request (client : bao_io_client) (req : bao_virtio_request) :
    bao_io_client :=
  { client with virtio_requests := client.virtio_requests ++ [req] }

/-- Modelled from the spec: `pop_request(req)` "dequeues from the head in FIFO order
(oldest-first) and returns success/failure depending on whether the queue was non-empty"
(section 4.2). The result is the returned `bool`, the client afterwards and the content of
`*req` afterwards. The body of `bao_io_client_pop_request` is missing. -/
def bao_io_client_pop_request (client : bao_io_client) (req : bao_virtio_request) :
    Bool × bao_io_client × bao_virtio_request :=
  match client.virtio_requests with
  | [] => (false, client, req)
  | r :: rest => (true, { client with virtio_requests := rest }, r)

/-- Pushes the requests of a list one after the other, first element first. -/
def push_all (client : bao_io_client) (reqs : List bao_virtio_request) : bao_io_client :=
  reqs.foldl bao_io_client_push_request client

/-- Runs `n` successive pops through the same `req` buffer; collects the returned `bool` and
the content of the buffer after each pop, and gives the client and the buffer at the end. -/
def pop_times : Nat → bao_io_client → bao_virtio_request →
    List (Bool × bao_virtio_request) × bao_io_client × bao_virtio_request
  | 0, client, req => ([], client, req)
  | n + 1, client, req =>
    let p := bao_io_client_pop_request client req
    let rest := pop_times n p.2.1 p.2.2
    ((p.1, p.2.2) :: rest.1, rest.2)

/-- Sign extension to 64 bits of the low 32 bits of `v`, as the claims word it: the low
32 bits themselves when bit 31 is clear, and with bits 32 to 63 all set otherwise. -/
def sign_extend_32_64 (v : Nat) : Nat :=
  if v % 2 ^ 32 < 2 ^ 31 then v % 2 ^ 32 else v % 2 ^ 32 + (2 ^ 64 - 2 ^ 32)

/-! ## Arithmetic of the conversions -/

theorem to_u64_of_lt {n : Nat} (h : n < 2 ^ 64) : to_u64 n = n := by
  unfold to_u64
  omega

theorem to_u64_to_u32 (n : Nat) : to_u64 (to_u32 n) = n % 2 ^ 32 := by
  unfold to_u64 to_u32
  omega

theorem to_u64_to_uintptr (xl : Xlen) (n : Nat) : to_u64 (to_uintptr xl n) = n % 2 ^ xl.bits := by
  cases xl <;> simp only [to_u64, to_uintptr, Xlen.bits] <;> omega

/-- Widening an `int` read from a register to `u64` is the sign extension of the low 32 bits
of the register. -/
theorem int_to_u64_to_int (v : Nat) : int_to_u64 (to_int v) = sign_extend_32_64 v := by
  unfold int_to_u64 to_int sign_extend_32_64
  split <;> omega

/-! ## The registers of a call, seen through the function -/

theorem arm64_hvc_args_of_wf (fid : Nat) (r : bao_virtio_request) (hr : r.wf) :
    CONFIG_ARM64.hvc_args fid r =
      ⟨int_bits (to_int fid), r.dm_id, r.addr, r.op, r.value, r.request_id⟩ := by
  obtain ⟨h1, h2, h3, h4, _, h6⟩ := hr
  simp only [CONFIG_ARM64.hvc_args, to_u64_of_lt h1, to_u64_of_lt h2, to_u64_of_lt h3,
    to_u64_of_lt h4, to_u64_of_lt h6]

/-- A hypervisor that answers in `x6` what an observer computes from the registers it is
shown makes the ARM64 call return that observation as the pending count. -/
theorem arm64_call_observed (fid : Nat) (obs : HvcArgs → Nat) (r : bao_virtio_request)
    (hr : r.wf) :
    (CONFIG_ARM64.bao_hypercall_remio fid (fun a => ⟨0, 0, 0, 0, 0, 0, obs a⟩) r).1.pending_requests =
      obs ⟨int_bits (to_int fid), r.dm_id, r.addr, r.op, r.value, r.request_id⟩ % 2 ^ 64 := by
  show to_u64 (obs (CONFIG_ARM64.hvc_args fid r)) = _
  rw [arm64_hvc_args_of_wf fid r hr]
  rfl

theorem arm64_call_eq_of_agree (fid : Nat) (r1 r2 : bao_virtio_request)
    (e1 : r1.dm_id = r2.dm_id) (e2 : r1.addr = r2.addr) (e3 : r1.op = r2.op)
    (e4 : r1.value = r2.value) (e5 : r1.request_id = r2.request_id) (h : HvcArgs → HvcRegs) :
    CONFIG_ARM64.bao_hypercall_remio fid h r1 = CONFIG_ARM64.bao_hypercall_remio fid h r2 := by
  have ha : CONFIG_ARM64.hvc_args fid r1 = CONFIG_ARM64.hvc_args fid r2 := by
    simp only [CONFIG_ARM64.hvc_args, e1, e2, e3, e4, e5]
  simp only [CONFIG_ARM64.bao_hypercall_remio, CONFIG_ARM64.asm_bao_hypercall_remio, ha, e1]

/-- Two well-formed requests get the same returned structure from every hypervisor on ARM64
exactly when they agree on `dm_id`, `addr`, `op`, `value` and `request_id`. -/
theorem arm64_ret_agree_iff (fid : Nat) (r1 r2 : bao_virtio_request) (hw1 : r1.wf)
    (hw2 : r2.wf) :
    (∀ h : HvcArgs → HvcRegs,
        (CONFIG_ARM64.bao_hypercall_remio fid h r1).1 =
          (CONFIG_ARM64.bao_hypercall_remio fid h r2).1) ↔
      r1.dm_id = r2.dm_id ∧ r1.addr = r2.addr ∧ r1.op = r2.op ∧ r1.value = r2.value ∧
        r1.request_id = r2.request_id := by
  constructor
  · intro H
    have key : ∀ obs : HvcArgs → Nat,
        obs ⟨int_bits (to_int fid), r1.dm_id, r1.addr, r1.op, r1.value, r1.request_id⟩ % 2 ^ 64 =
          obs ⟨int_bits (to_int fid), r2.dm_id, r2.addr, r2.op, r2.value, r2.request_id⟩ %
            2 ^ 64 := by
      intro obs
      rw [← arm64_call_observed fid obs r1 hw1, ← arm64_call_observed fid obs r2 hw2, H]
    obtain ⟨a1, a2, a3, a4, _, a6⟩ := hw1
    obtain ⟨b1, b2, b3, b4, _, b6⟩ := hw2
    have k1 := key (fun a => a.x1)
    have k2 := key (fun a => a.x2)
    have k3 := key (fun a => a.x3)
    have k4 := key (fun a => a.x4)
    have k5 := key (fun a => a.x5)
    simp only at k1 k2 k3 k4 k5
    refine ⟨?_, ?_, ?_, ?_, ?_⟩ <;> omega
  · rintro ⟨e1, e2, e3, e4, e5⟩ h
    rw [arm64_call_eq_of_agree fid r1 r2 e1 e2 e3 e4 e5 h]

/-! ## What the hypervisor is shown -/

/-- C1, as stated, fails on RV32: a well-formed request whose `request_id` needs more than
32 bits reaches the hypervisor with another value in `a4`. -/
theorem rv32_ecall_truncates_request_id :
    (⟨1, 0x100, 0, 7, 4, 2 ^ 32 + 5⟩ : bao_virtio_request).wf ∧
      (CONFIG_RISCV.ecall_args .rv32 ⟨1, 0x100, 0, 7, 4, 2 ^ 32 + 5⟩).a4 = 5 ∧
      (CONFIG_RISCV.ecall_args .rv32 ⟨1, 0x100, 0, 7, 4, 2 ^ 32 + 5⟩).a4 ≠
        (⟨1, 0x100, 0, 7, 4, 2 ^ 32 + 5⟩ : bao_virtio_request).request_id := by
  decide

/-- C1 (amended): for every well-formed request and every hypervisor, on ARM64 the call shows
the hypervisor `x1 = dm_id`, `x2 = addr`, `x3 = op`, `x4 = value`, `x5 = request_id`
unmodified, and its result depends on the hypervisor only through the response to exactly
these registers; on RISC-V `a0 ... a4` hold the same fields in the same order converted to
`uintptr_t`, that is reduced modulo `2 ^ XLEN`, hence unmodified on RV64. Whatever a
hypervisor computes from the registers it is shown and answers as the pending count, the
caller reads that value computed from exactly these registers. -/
theorem remio_hypervisor_sees_request_fields (fid : Nat) (xl : Xlen)
    (r : bao_virtio_request) (hr : r.wf) :
    ((CONFIG_ARM64.hvc_args fid r).x1 = r.dm_id ∧
      (CONFIG_ARM64.hvc_args fid r).x2 = r.addr ∧
      (CONFIG_ARM64.hvc_args fid r).x3 = r.op ∧
      (CONFIG_ARM64.hvc_args fid r).x4 = r.value ∧
      (CONFIG_ARM64.hvc_args fid r).x5 = r.request_id) ∧
    (∀ h1 h2 : HvcArgs → HvcRegs,
      h1 (CONFIG_ARM64.hvc_args fid r) = h2 (CONFIG_ARM64.hvc_args fid r) →
        CONFIG_ARM64.bao_hypercall_remio fid h1 r = CONFIG_ARM64.bao_hypercall_remio fid h2 r) ∧
    ((CONFIG_RISCV.ecall_args xl r).a0 = r.dm_id % 2 ^ xl.bits ∧
      (CONFIG_RISCV.ecall_args xl r).a1 = r.addr % 2 ^ xl.bits ∧
      (CONFIG_RISCV.ecall_args xl r).a2 = r.op % 2 ^ xl.bits ∧
      (CONFIG_RISCV.ecall_args xl r).a3 = r.value % 2 ^ xl.bits ∧
      (CONFIG_RISCV.ecall_args xl r).a4 = r.request_id % 2 ^ xl.bits) ∧
    (∀ h1 h2 : EcallRegs → EcallRegs,
      h1 (CONFIG_RISCV.ecall_args xl r) = h2 (CONFIG_RISCV.ecall_args xl r) →
        CONFIG_RISCV.bao_hypercall_remio xl h1 r = CONFIG_RISCV.bao_hypercall_remio xl h2 r) ∧
    ((CONFIG_RISCV.ecall_args .rv64 r).a0 = r.dm_id ∧
      (CONFIG_RISCV.ecall_args .rv64 r).a1 = r.addr ∧
      (CONFIG_RISCV.ecall_args .rv64 r).a2 = r.op ∧
      (CONFIG_RISCV.ecall_args .rv64 r).a3 = r.value ∧
      (CONFIG_RISCV.ecall_args .rv64 r).a4 = r.request_id) ∧
    (∀ obs : HvcArgs → Nat,
      (CONFIG_ARM64.bao_hypercall_remio fid (fun a => ⟨0, 0, 0, 0, 0, 0, obs a⟩)
          r).1.pending_requests =
        obs ⟨int_bits (to_int fid), r.dm_id, r.addr, r.op, r.value, r.request_id⟩ % 2 ^ 64) ∧
    (∀ obs : EcallRegs → Nat,
      (CONFIG_RISCV.bao_hypercall_remio xl (fun a => ⟨0, 0, 0, 0, 0, 0, 0, obs a⟩)
          r).1.pending_requests =
        obs ⟨r.dm_id % 2 ^ xl.bits, r.addr % 2 ^ xl.bits, r.op % 2 ^ xl.bits,
            r.value % 2 ^ xl.bits, r.request_id % 2 ^ xl.bits, 0 % 2 ^ xl.bits,
            REMIO_HC_ID % 2 ^ xl.bits, 0x08000ba0 % 2 ^ xl.bits⟩ % 2 ^ xl.bits) := by
  have hr0 := hr
  obtain ⟨h1, h2, h3, h4, _, h6⟩ := hr
  refine ⟨?_, ?_, ?_, ?_, ?_, fun obs => arm64_call_observed fid obs r hr0, ?_⟩
  rotate_right
  · intro obs
    exact to_u64_to_uintptr xl _
  · simp only [CONFIG_ARM64.hvc_args, to_u64_of_lt h1, to_u64_of_lt h2, to_u64_of_lt h3,
      to_u64_of_lt h4, to_u64_of_lt h6, and_self]
  · intro g1 g2 hg
    simp only [CONFIG_ARM64.bao_hypercall_remio, CONFIG_ARM64.asm_bao_hypercall_remio, hg]
  · simp [CONFIG_RISCV.ecall_args, to_uintptr]
  · intro g1 g2 hg
    simp only [CONFIG_RISCV.bao_hypercall_remio, CONFIG_RISCV.asm_bao_hypercall_remio, hg]
  · simp only [CONFIG_RISCV.ecall_args, to_uintptr, Xlen.bits]
    refine ⟨?_, ?_, ?_, ?_, ?_⟩ <;> omega

/-- Witness of C1 (amended): a write of 7 to address `0x100` of device model 1. -/
theorem remio_hypervisor_sees_request_fields_witness :
    (⟨1, 0x100, 0, 7, 4, 9⟩ : bao_virtio_request).wf ∧
      (CONFIG_ARM64.hvc_args 0xC6000002 ⟨1, 0x100, 0, 7, 4, 9⟩).x5 = 9 :=
  ⟨by decide,
    (remio_hypervisor_sees_request_fields 0xC6000002 .rv64 ⟨1, 0x100, 0, 7, 4, 9⟩
      (by decide)).1.2.2.2.2⟩

/-- C5, as stated, fails: two Ask requests that agree on `dm_id` and `request_id` and differ
in `addr` present different registers to the hypervisor, and so do two that differ in
`value`; with a hypervisor that answers in `x6` what it was shown in `x2`, the returned
pending count differs as well. -/
theorem ask_args_depend_on_addr_and_value :
    (⟨1, 0x100, BAO_IO_ASK, 0, 0, 9⟩ : bao_virtio_request).op = BAO_IO_ASK ∧
      CONFIG_ARM64.hvc_args 0xC6000002 ⟨1, 0x100, BAO_IO_ASK, 0, 0, 9⟩ ≠
        CONFIG_ARM64.hvc_args 0xC6000002 ⟨1, 0x200, BAO_IO_ASK, 0, 0, 9⟩ ∧
      CONFIG_ARM64.hvc_args 0xC6000002 ⟨1, 0x100, BAO_IO_ASK, 0, 0, 9⟩ ≠
        CONFIG_ARM64.hvc_args 0xC6000002 ⟨1, 0x100, BAO_IO_ASK, 7, 0, 9⟩ ∧
      (CONFIG_ARM64.bao_hypercall_remio 0xC6000002 (fun a => ⟨0, 0, 0, 0, 0, 0, a.x2⟩)
          ⟨1, 0x100, BAO_IO_ASK, 0, 0, 9⟩).1.pending_requests ≠
        (CONFIG_ARM64.bao_hypercall_remio 0xC6000002 (fun a => ⟨0, 0, 0, 0, 0, 0, a.x2⟩)
          ⟨1, 0x200, BAO_IO_ASK, 0, 0, 9⟩).1.pending_requests := by
  decide

/-- C5 (amended): `bao_hypercall_remio` forwards `addr` and `value` to the hypervisor for
every operation, Ask included: for every well-formed request a hypervisor that answers what it
is shown in `x2`, `x3` or `x4` hands back the request's `addr`, `op` or `value`; and two
well-formed requests with `op = BAO_IO_ASK` present the same registers on ARM64, and get the
same result from every hypervisor, exactly when they agree on `dm_id`, `addr`, `value` and
`request_id`. On ARM and on RISC-V the hypervisor is likewise shown `addr` and `value`,
reduced to the width of the register. -/
theorem ask_args_forward_addr_and_value (fid : Nat) (xl : Xlen) (r : bao_virtio_request)
    (hw : r.wf) :
    ((CONFIG_ARM64.bao_hypercall_remio fid (fun a => ⟨0, 0, 0, 0, 0, 0, a.x2⟩)
          r).1.pending_requests = r.addr ∧
      (CONFIG_ARM64.bao_hypercall_remio fid (fun a => ⟨0, 0, 0, 0, 0, 0, a.x3⟩)
          r).1.pending_requests = r.op ∧
      (CONFIG_ARM64.bao_hypercall_remio fid (fun a => ⟨0, 0, 0, 0, 0, 0, a.x4⟩)
          r).1.pending_requests = r.value) ∧
    ((CONFIG_ARM64.hvc_args fid r).x2 = r.addr ∧
      (CONFIG_ARM64.hvc_args fid r).x3 = r.op ∧
      (CONFIG_ARM64.hvc_args fid r).x4 = r.value) ∧
    (∀ r2 : bao_virtio_request, r2.wf → r.op = BAO_IO_ASK → r2.op = BAO_IO_ASK →
      (CONFIG_ARM64.hvc_args fid r = CONFIG_ARM64.hvc_args fid r2 ↔
        r.dm_id = r2.dm_id ∧ r.addr = r2.addr ∧ r.value = r2.value ∧
          r.request_id = r2.request_id) ∧
      ((∀ h : HvcArgs → HvcRegs,
          CONFIG_ARM64.bao_hypercall_remio fid h r = CONFIG_ARM64.bao_hypercall_remio fid h r2) ↔
        r.dm_id = r2.dm_id ∧ r.addr = r2.addr ∧ r.value = r2.value ∧
          r.request_id = r2.request_id)) ∧
    ((CONFIG_ARM.bao_hypercall_remio fid (fun a => ⟨0, 0, 0, 0, 0, 0, a.x2⟩)
          r).1.pending_requests = r.addr % 2 ^ 32 ∧
      (CONFIG_ARM.bao_hypercall_remio fid (fun a => ⟨0, 0, 0, 0, 0, 0, a.x4⟩)
          r).1.pending_requests = r.value % 2 ^ 32 ∧
      (CONFIG_RISCV.bao_hypercall_remio xl (fun a => ⟨0, 0, 0, 0, 0, 0, 0, a.a1⟩)
          r).1.pending_requests = r.addr % 2 ^ xl.bits ∧
      (CONFIG_RISCV.bao_hypercall_remio xl (fun a => ⟨0, 0, 0, 0, 0, 0, 0, a.a3⟩)
          r).1.pending_requests = r.value % 2 ^ xl.bits) := by
  have harm : ∀ n : Nat, to_u64 (to_u32 (to_u32 n)) = n % 2 ^ 32 := by
    intro n
    unfold to_u64 to_u32
    omega
  have hrv : ∀ n : Nat, to_u64 (to_uintptr xl (to_uintptr xl n)) = n % 2 ^ xl.bits := by
    intro n
    rw [to_u64_to_uintptr]
    exact Nat.mod_mod _ _
  have hargs := arm64_hvc_args_of_wf fid r hw
  have f2 := arm64_call_observed fid (fun a => a.x2) r hw
  have f3 := arm64_call_observed fid (fun a => a.x3) r hw
  have f4 := arm64_call_observed fid (fun a => a.x4) r hw
  simp only at f2 f3 f4
  obtain ⟨_, a2, a3, a4, _, _⟩ := hw
  refine ⟨⟨?_, ?_, ?_⟩, ?_, ?_, ⟨harm _, harm _, hrv _, hrv _⟩⟩
  · rw [f2]
    omega
  · rw [f3]
    omega
  · rw [f4]
    omega
  · rw [hargs]
    exact ⟨rfl, rfl, rfl⟩
  · intro r2 hw2 hop hop2
    have hops : r.op = r2.op := by rw [hop, hop2]
    constructor
    · rw [hargs, arm64_hvc_args_of_wf fid r2 hw2]
      simp only [HvcArgs.mk.injEq, true_and, hops]
    · constructor
      · intro H
        have five := (arm64_ret_agree_iff fid r r2
          ⟨by assumption, a2, a3, a4, by assumption, by assumption⟩ hw2).1
          (fun h => congrArg Prod.fst (H h))
        exact ⟨five.1, five.2.1, five.2.2.2.1, five.2.2.2.2⟩
      · rintro ⟨e1, e2, e4, e5⟩ h
        exact arm64_call_eq_of_agree fid r r2 e1 e2 hops e4 e5 h

/-- Witness of C5 (amended): an Ask request of device model 1 that carries an address and a
value. -/
theorem ask_args_forward_addr_and_value_witness :
    (⟨1, 0x100, BAO_IO_ASK, 7, 0, 9⟩ : bao_virtio_request).wf ∧
      (CONFIG_ARM64.bao_hypercall_remio 0xC6000002 (fun a => ⟨0, 0, 0, 0, 0, 0, a.x2⟩)
        ⟨1, 0x100, BAO_IO_ASK, 7, 0, 9⟩).1.pending_requests = 0x100 ∧
      (CONFIG_ARM64.bao_hypercall_remio 0xC6000002 (fun a => ⟨0, 0, 0, 0, 0, 0, a.x4⟩)
        ⟨1, 0x100, BAO_IO_ASK, 7, 0, 9⟩).1.pending_requests = 7 ∧
      ((∀ h : HvcArgs → HvcRegs,
          CONFIG_ARM64.bao_hypercall_remio 0xC6000002 h ⟨1, 0x100, BAO_IO_ASK, 7, 0, 9⟩ =
            CONFIG_ARM64.bao_hypercall_remio 0xC6000002 h ⟨1, 0x200, BAO_IO_ASK, 7, 0, 9⟩) ↔
        (1 : Nat) = 1 ∧ (0x100 : Nat) = 0x200 ∧ (7 : Nat) = 7 ∧ (9 : Nat) = 9) :=
  ⟨by decide,
    (ask_args_forward_addr_and_value 0xC6000002 .rv64 ⟨1, 0x100, BAO_IO_ASK, 7, 0, 9⟩
      (by decide)).1.1,
    (ask_args_forward_addr_and_value 0xC6000002 .rv64 ⟨1, 0x100, BAO_IO_ASK, 7, 0, 9⟩
      (by decide)).1.2.2,
    ((ask_args_forward_addr_and_value 0xC6000002 .rv64 ⟨1, 0x100, BAO_IO_ASK, 7, 0, 9⟩
      (by decide)).2.2.1 ⟨1, 0x200, BAO_IO_ASK, 7, 0, 9⟩ (by decide) rfl rfl).2⟩

/-! ## What the caller gets back -/

/-- C3, as stated, fails on ARM64 and on ARM: with a hypervisor that leaves 1 in every result
register, the returned `hyp_ret` is 0. -/
theorem arm_hyp_ret_is_zero_for_nonzero_response :
    (⟨1, 1, 1, 1, 1, 1, 1⟩ : HvcRegs).x0 ≠ 0 ∧
      (CONFIG_ARM64.bao_hypercall_remio 0xC6000002 (fun _ => ⟨1, 1, 1, 1, 1, 1, 1⟩)
        ⟨1, 0x100, 0, 7, 4, 9⟩).1.hyp_ret = 0 ∧
      (CONFIG_ARM.bao_hypercall_remio 0xC6000002 (fun _ => ⟨1, 1, 1, 1, 1, 1, 1⟩)
        ⟨1, 0x100, 0, 7, 4, 9⟩).1.hyp_ret = 0 := by
  decide

/-- C3 (amended): on RISC-V the returned structure reports the hypervisor's registers,
`hyp_ret = a0`, `remio_hyp_ret = a1`, `pending_requests = a7` (each as the `XLEN`-bit content
of the register), so a non-zero `a0` gives a non-zero `hyp_ret`; on ARM64 and on ARM `hyp_ret`
is the constant 0, `remio_hyp_ret` is the sign extension of the low 32 bits of result register
0, non-zero whenever these bits are, and `pending_requests` is the content of result
register 6. -/
theorem remio_ret_reports_registers (fid : Nat) (xl : Xlen) (h : HvcArgs → HvcRegs)
    (g : EcallRegs → EcallRegs) (r : bao_virtio_request) :
    ((CONFIG_RISCV.bao_hypercall_remio xl g r).1.hyp_ret =
        (g (CONFIG_RISCV.ecall_args xl r)).a0 % 2 ^ xl.bits ∧
      (CONFIG_RISCV.bao_hypercall_remio xl g r).1.remio_hyp_ret =
        (g (CONFIG_RISCV.ecall_args xl r)).a1 % 2 ^ xl.bits ∧
      (CONFIG_RISCV.bao_hypercall_remio xl g r).1.pending_requests =
        (g (CONFIG_RISCV.ecall_args xl r)).a7 % 2 ^ xl.bits ∧
      ((g (CONFIG_RISCV.ecall_args xl r)).a0 % 2 ^ xl.bits ≠ 0 →
        (CONFIG_RISCV.bao_hypercall_remio xl g r).1.hyp_ret ≠ 0)) ∧
    ((CONFIG_ARM64.bao_hypercall_remio fid h r).1.hyp_ret = 0 ∧
      (CONFIG_ARM64.bao_hypercall_remio fid h r).1.remio_hyp_ret =
        sign_extend_32_64 (h (CONFIG_ARM64.hvc_args fid r)).x0 ∧
      (CONFIG_ARM64.bao_hypercall_remio fid h r).1.pending_requests =
        (h (CONFIG_ARM64.hvc_args fid r)).x6 % 2 ^ 64 ∧
      ((h (CONFIG_ARM64.hvc_args fid r)).x0 % 2 ^ 32 ≠ 0 →
        (CONFIG_ARM64.bao_hypercall_remio fid h r).1.remio_hyp_ret ≠ 0)) ∧
    ((CONFIG_ARM.bao_hypercall_remio fid h r).1.hyp_ret = 0 ∧
      (CONFIG_ARM.bao_hypercall_remio fid h r).1.remio_hyp_ret =
        sign_extend_32_64 (h (CONFIG_ARM.hvc_args fid r)).x0 ∧
      (CONFIG_ARM.bao_hypercall_remio fid h r).1.pending_requests =
        (h (CONFIG_ARM.hvc_args fid r)).x6 % 2 ^ 32 ∧
      ((h (CONFIG_ARM.hvc_args fid r)).x0 % 2 ^ 32 ≠ 0 →
        (CONFIG_ARM.bao_hypercall_remio fid h r).1.remio_hyp_ret ≠ 0)) := by
  have hne : ∀ v : Nat, v % 2 ^ 32 ≠ 0 → sign_extend_32_64 v ≠ 0 := by
    intro v hv
    unfold sign_extend_32_64
    split <;> omega
  refine ⟨⟨?_, ?_, ?_, ?_⟩, ⟨rfl, ?_, rfl, ?_⟩, ⟨rfl, ?_, ?_, ?_⟩⟩
  · exact to_u64_to_uintptr xl _
  · exact to_u64_to_uintptr xl _
  · exact to_u64_to_uintptr xl _
  · intro hz
    show to_u64 (to_uintptr xl _) ≠ 0
    rw [to_u64_to_uintptr]
    exact hz
  · exact int_to_u64_to_int _
  · intro hz
    show int_to_u64 (to_int _) ≠ 0
    rw [int_to_u64_to_int]
    exact hne _ hz
  · exact int_to_u64_to_int _
  · exact to_u64_to_u32 _
  · intro hz
    show int_to_u64 (to_int _) ≠ 0
    rw [int_to_u64_to_int]
    exact hne _ hz

/-- Witness of C3 (amended): a hypervisor that answers 3 in `a0` on RV64. -/
theorem remio_ret_reports_registers_witness :
    (CONFIG_RISCV.bao_hypercall_remio .rv64 (fun _ => ⟨3, 0, 0, 0, 0, 0, 0, 0⟩)
      ⟨1, 0x100, 0, 7, 4, 9⟩).1.hyp_ret ≠ 0 :=
  (remio_ret_reports_registers 0xC6000002 .rv64 (fun _ => ⟨1, 1, 1, 1, 1, 1, 1⟩)
    (fun _ => ⟨3, 0, 0, 0, 0, 0, 0, 0⟩) ⟨1, 0x100, 0, 7, 4, 9⟩).1.2.2.2 (by decide)

/-- C4: after the call the request's `addr`, `op`, `value`, `access_width` and `request_id`
are exactly the values the hypervisor returned in result registers 1 to 5 on ARM64 and ARM and
in `a2 ... a6` on RISC-V, for every request and every response that fits the registers; any
other call that receives the same response stores the same five values, whatever the request
held before. -/
theorem remio_request_updated_from_registers (fid : Nat) (xl : Xlen) (h : HvcArgs → HvcRegs)
    (g : EcallRegs → EcallRegs) (r : bao_virtio_request)
    (h64 : (h (CONFIG_ARM64.hvc_args fid r)).fits 64)
    (h32 : (h (CONFIG_ARM.hvc_args fid r)).fits 32)
    (hrv : (g (CONFIG_RISCV.ecall_args xl r)).fits xl.bits) :
    ((CONFIG_ARM64.bao_hypercall_remio fid h r).2.addr = (h (CONFIG_ARM64.hvc_args fid r)).x1 ∧
      (CONFIG_ARM64.bao_hypercall_remio fid h r).2.op = (h (CONFIG_ARM64.hvc_args fid r)).x2 ∧
      (CONFIG_ARM64.bao_hypercall_remio fid h r).2.value = (h (CONFIG_ARM64.hvc_args fid r)).x3 ∧
      (CONFIG_ARM64.bao_hypercall_remio fid h r).2.access_width =
        (h (CONFIG_ARM64.hvc_args fid r)).x4 ∧
      (CONFIG_ARM64.bao_hypercall_remio fid h r).2.request_id =
        (h (CONFIG_ARM64.hvc_args fid r)).x5) ∧
    ((CONFIG_ARM.bao_hypercall_remio fid h r).2.addr = (h (CONFIG_ARM.hvc_args fid r)).x1 ∧
      (CONFIG_ARM.bao_hypercall_remio fid h r).2.op = (h (CONFIG_ARM.hvc_args fid r)).x2 ∧
      (CONFIG_ARM.bao_hypercall_remio fid h r).2.value = (h (CONFIG_ARM.hvc_args fid r)).x3 ∧
      (CONFIG_ARM.bao_hypercall_remio fid h r).2.access_width =
        (h (CONFIG_ARM.hvc_args fid r)).x4 ∧
      (CONFIG_ARM.bao_hypercall_remio fid h r).2.request_id =
        (h (CONFIG_ARM.hvc_args fid r)).x5) ∧
    ((CONFIG_RISCV.bao_hypercall_remio xl g r).2.addr = (g (CONFIG_RISCV.ecall_args xl r)).a2 ∧
      (CONFIG_RISCV.bao_hypercall_remio xl g r).2.op = (g (CONFIG_RISCV.ecall_args xl r)).a3 ∧
      (CONFIG_RISCV.bao_hypercall_remio xl g r).2.value = (g (CONFIG_RISCV.ecall_args xl r)).a4 ∧
      (CONFIG_RISCV.bao_hypercall_remio xl g r).2.access_width =
        (g (CONFIG_RISCV.ecall_args xl r)).a5 ∧
      (CONFIG_RISCV.bao_hypercall_remio xl g r).2.request_id =
        (g (CONFIG_RISCV.ecall_args xl r)).a6) ∧
    (∀ (h2 : HvcArgs → HvcRegs) (r2 : bao_virtio_request),
      (h2 (CONFIG_ARM64.hvc_args fid r2) = h (CONFIG_ARM64.hvc_args fid r) →
        (CONFIG_ARM64.bao_hypercall_remio fid h2 r2).2.written =
          (CONFIG_ARM64.bao_hypercall_remio fid h r).2.written) ∧
      (h2 (CONFIG_ARM.hvc_args fid r2) = h (CONFIG_ARM.hvc_args fid r) →
        (CONFIG_ARM.bao_hypercall_remio fid h2 r2).2.written =
          (CONFIG_ARM.bao_hypercall_remio fid h r).2.written)) ∧
    (∀ (g2 : EcallRegs → EcallRegs) (r2 : bao_virtio_request),
      g2 (CONFIG_RISCV.ecall_args xl r2) = g (CONFIG_RISCV.ecall_args xl r) →
        (CONFIG_RISCV.bao_hypercall_remio xl g2 r2).2.written =
          (CONFIG_RISCV.bao_hypercall_remio xl g r).2.written) := by
  obtain ⟨_, a1, a2, a3, a4, a5, _⟩ := h64
  obtain ⟨_, b1, b2, b3, b4, b5, _⟩ := h32
  obtain ⟨_, _, c2, c3, c4, c5, c6, _⟩ := hrv
  have hu : ∀ n : Nat, n < 2 ^ 32 → to_u64 (to_u32 n) = n := by
    intro n hn
    rw [to_u64_to_u32]
    omega
  have hp : ∀ n : Nat, n < 2 ^ xl.bits → to_u64 (to_uintptr xl n) = n := by
    intro n hn
    rw [to_u64_to_uintptr]
    exact Nat.mod_eq_of_lt hn
  refine ⟨⟨?_, ?_, ?_, ?_, ?_⟩, ⟨?_, ?_, ?_, ?_, ?_⟩, ⟨?_, ?_, ?_, ?_, ?_⟩, ?_, ?_⟩
  · exact to_u64_of_lt a1
  · exact to_u64_of_lt a2
  · exact to_u64_of_lt a3
  · exact to_u64_of_lt a4
  · exact to_u64_of_lt a5
  · exact hu _ b1
  · exact hu _ b2
  · exact hu _ b3
  · exact hu _ b4
  · exact hu _ b5
  · exact hp _ c2
  · exact hp _ c3
  · exact hp _ c4
  · exact hp _ c5
  · exact hp _ c6
  · intro h2 r2
    constructor
    · intro e
      simp only [CONFIG_ARM64.bao_hypercall_remio, CONFIG_ARM64.asm_bao_hypercall_remio,
        bao_virtio_request.written, e]
    · intro e
      simp only [CONFIG_ARM.bao_hypercall_remio, CONFIG_ARM.asm_bao_hypercall_remio,
        bao_virtio_request.written, e]
  · intro g2 r2 e
    simp only [CONFIG_RISCV.bao_hypercall_remio, CONFIG_RISCV.asm_bao_hypercall_remio,
      bao_virtio_request.written, e]

/-- Witness of C4: the hypervisor answers a read of `0x100` with the value `0xabcd`. -/
theorem remio_request_updated_from_registers_witness :
    (⟨0, 0x100, 1, 0xabcd, 4, 9, 2⟩ : HvcRegs).fits 32 ∧
      (⟨0, 0, 0x100, 1, 0xabcd, 4, 9, 2⟩ : EcallRegs).fits 64 ∧
      (CONFIG_ARM64.bao_hypercall_remio 0xC6000002 (fun _ => ⟨0, 0x100, 1, 0xabcd, 4, 9, 2⟩)
        ⟨1, 0, 2, 0, 0, 0⟩).2.value = 0xabcd ∧
      (CONFIG_ARM.bao_hypercall_remio 0xC6000002 (fun _ => ⟨0, 0x100, 1, 0xabcd, 4, 9, 2⟩)
        ⟨1, 0, 2, 0, 0, 0⟩).2.request_id = 9 ∧
      (CONFIG_RISCV.bao_hypercall_remio .rv64 (fun _ => ⟨0, 0, 0x100, 1, 0xabcd, 4, 9, 2⟩)
        ⟨1, 0, 2, 0, 0, 0⟩).2.value = 0xabcd :=
  ⟨by decide, by decide,
    (remio_request_updated_from_registers 0xC6000002 .rv64
      (fun _ => ⟨0, 0x100, 1, 0xabcd, 4, 9, 2⟩) (fun _ => ⟨0, 0, 0x100, 1, 0xabcd, 4, 9, 2⟩)
      ⟨1, 0, 2, 0, 0, 0⟩ (by decide) (by decide) (by decide)).1.2.2.1,
    (remio_request_updated_from_registers 0xC6000002 .rv64
      (fun _ => ⟨0, 0x100, 1, 0xabcd, 4, 9, 2⟩) (fun _ => ⟨0, 0, 0x100, 1, 0xabcd, 4, 9, 2⟩)
      ⟨1, 0, 2, 0, 0, 0⟩ (by decide) (by decide) (by decide)).2.1.2.2.2.2,
    (remio_request_updated_from_registers 0xC6000002 .rv64
      (fun _ => ⟨0, 0x100, 1, 0xabcd, 4, 9, 2⟩) (fun _ => ⟨0, 0, 0x100, 1, 0xabcd, 4, 9, 2⟩)
      ⟨1, 0, 2, 0, 0, 0⟩ (by decide) (by decide) (by decide)).2.2.1.2.2.1⟩

/-- C8: in all three variants the request's `dm_id` after the call is its `dm_id` before the
call, for every request and every hypervisor response. -/
theorem remio_preserves_dm_id (fid : Nat) (xl : Xlen) (h : HvcArgs → HvcRegs)
    (g : EcallRegs → EcallRegs) (r : bao_virtio_request) :
    (CONFIG_ARM64.bao_hypercall_remio fid h r).2.dm_id = r.dm_id ∧
      (CONFIG_ARM.bao_hypercall_remio fid h r).2.dm_id = r.dm_id ∧
      (CONFIG_RISCV.bao_hypercall_remio xl g r).2.dm_id = r.dm_id :=
  ⟨rfl, rfl, rfl⟩

/-- C9: on ARM64, for every 64-bit value `v` the hypervisor leaves in `x0`, the returned
`remio_hyp_ret` is the sign extension to 64 bits of `v mod 2 ^ 32`: it is below `2 ^ 31` or at
least `2 ^ 64 - 2 ^ 31`, it is 0 exactly when the low 32 bits of `v` are 0, and it equals `v`
exactly when `v` is itself such a sign-extended value. -/
theorem arm64_remio_hyp_ret_sign_extends (fid : Nat) (h : HvcArgs → HvcRegs)
    (r : bao_virtio_request) (v : Nat) (hv : (h (CONFIG_ARM64.hvc_args fid r)).x0 = v)
    (hlt : v < 2 ^ 64) :
    (CONFIG_ARM64.bao_hypercall_remio fid h r).1.remio_hyp_ret = sign_extend_32_64 v ∧
      ((CONFIG_ARM64.bao_hypercall_remio fid h r).1.remio_hyp_ret < 2 ^ 31 ∨
        2 ^ 64 - 2 ^ 31 ≤ (CONFIG_ARM64.bao_hypercall_remio fid h r).1.remio_hyp_ret) ∧
      (CONFIG_ARM64.bao_hypercall_remio fid h r).1.remio_hyp_ret < 2 ^ 64 ∧
      ((CONFIG_ARM64.bao_hypercall_remio fid h r).1.remio_hyp_ret = 0 ↔ v % 2 ^ 32 = 0) ∧
      ((CONFIG_ARM64.bao_hypercall_remio fid h r).1.remio_hyp_ret = v ↔
        v < 2 ^ 31 ∨ 2 ^ 64 - 2 ^ 31 ≤ v) := by
  have e : (CONFIG_ARM64.bao_hypercall_remio fid h r).1.remio_hyp_ret = sign_extend_32_64 v := by
    show int_to_u64 (to_int (h (CONFIG_ARM64.hvc_args fid r)).x0) = _
    rw [hv, int_to_u64_to_int]
  rw [e]
  unfold sign_extend_32_64
  refine ⟨rfl, ?_, ?_, ?_, ?_⟩ <;> split <;> omega

/-- Witness of C9: the hypervisor leaves `0x1_ffff_ffff` in `x0`; the caller reads
`0xffff_ffff_ffff_ffff`, which differs from what the hypervisor left. -/
theorem arm64_remio_hyp_ret_sign_extends_witness :
    (0x1ffffffff : Nat) < 2 ^ 64 ∧
      (CONFIG_ARM64.bao_hypercall_remio 0xC6000002 (fun _ => ⟨0x1ffffffff, 0, 0, 0, 0, 0, 0⟩)
        ⟨1, 0x100, 0, 7, 4, 9⟩).1.remio_hyp_ret = sign_extend_32_64 0x1ffffffff ∧
      sign_extend_32_64 0x1ffffffff = 0xffffffffffffffff :=
  ⟨by decide,
    (arm64_remio_hyp_ret_sign_extends 0xC6000002 (fun _ => ⟨0x1ffffffff, 0, 0, 0, 0, 0, 0⟩)
      ⟨1, 0x100, 0, 7, 4, 9⟩ 0x1ffffffff rfl (by decide)).1,
    by decide⟩

/-- C10: on ARM the hypervisor receives `dm_id`, `addr`, `op`, `value` and `request_id` each
reduced modulo `2 ^ 32`; two requests whose fields agree modulo `2 ^ 32` present the same
registers and get the same returned structure and the same five stored fields; after the call
the five stored fields and `pending_requests` are below `2 ^ 32`; and whenever every request
field and every hypervisor result fits in 32 bits the ARM and the ARM64 variant give the same
result. -/
theorem arm_passes_fields_modulo_32_bits (fid : Nat) (h : HvcArgs → HvcRegs)
    (r : bao_virtio_request) :
    ((CONFIG_ARM.hvc_args fid r).x1 = r.dm_id % 2 ^ 32 ∧
      (CONFIG_ARM.hvc_args fid r).x2 = r.addr % 2 ^ 32 ∧
      (CONFIG_ARM.hvc_args fid r).x3 = r.op % 2 ^ 32 ∧
      (CONFIG_ARM.hvc_args fid r).x4 = r.value % 2 ^ 32 ∧
      (CONFIG_ARM.hvc_args fid r).x5 = r.request_id % 2 ^ 32) ∧
    (∀ r2 : bao_virtio_request,
      r.dm_id % 2 ^ 32 = r2.dm_id % 2 ^ 32 → r.addr % 2 ^ 32 = r2.addr % 2 ^ 32 →
      r.op % 2 ^ 32 = r2.op % 2 ^ 32 → r.value % 2 ^ 32 = r2.value % 2 ^ 32 →
      r.request_id % 2 ^ 32 = r2.request_id % 2 ^ 32 →
        CONFIG_ARM.hvc_args fid r = CONFIG_ARM.hvc_args fid r2 ∧
          (CONFIG_ARM.bao_hypercall_remio fid h r).1 =
            (CONFIG_ARM.bao_hypercall_remio fid h r2).1 ∧
          (CONFIG_ARM.bao_hypercall_remio fid h r).2.written =
            (CONFIG_ARM.bao_hypercall_remio fid h r2).2.written) ∧
    ((CONFIG_ARM.bao_hypercall_remio fid h r).2.addr < 2 ^ 32 ∧
      (CONFIG_ARM.bao_hypercall_remio fid h r).2.op < 2 ^ 32 ∧
      (CONFIG_ARM.bao_hypercall_remio fid h r).2.value < 2 ^ 32 ∧
      (CONFIG_ARM.bao_hypercall_remio fid h r).2.access_width < 2 ^ 32 ∧
      (CONFIG_ARM.bao_hypercall_remio fid h r).2.request_id < 2 ^ 32 ∧
      (CONFIG_ARM.bao_hypercall_remio fid h r).1.pending_requests < 2 ^ 32) ∧
    (r.dm_id < 2 ^ 32 → r.addr < 2 ^ 32 → r.op < 2 ^ 32 → r.value < 2 ^ 32 →
      r.access_width < 2 ^ 32 → r.request_id < 2 ^ 32 →
      (h (CONFIG_ARM64.hvc_args fid r)).fits 32 →
        (CONFIG_ARM.bao_hypercall_remio fid h r).2.written =
            (CONFIG_ARM64.bao_hypercall_remio fid h r).2.written ∧
          (CONFIG_ARM.bao_hypercall_remio fid h r).1.pending_requests =
            (CONFIG_ARM64.bao_hypercall_remio fid h r).1.pending_requests ∧
          CONFIG_ARM.bao_hypercall_remio fid h r = CONFIG_ARM64.bao_hypercall_remio fid h r) := by
  have hb : ∀ n : Nat, to_u64 (to_u32 n) < 2 ^ 32 := by
    intro n
    rw [to_u64_to_u32]
    omega
  refine ⟨⟨rfl, rfl, rfl, rfl, rfl⟩, ?_, ⟨hb _, hb _, hb _, hb _, hb _, hb _⟩, ?_⟩
  · intro r2 e1 e2 e3 e4 e5
    have ha : CONFIG_ARM.hvc_args fid r = CONFIG_ARM.hvc_args fid r2 := by
      simp only [CONFIG_ARM.hvc_args, to_u32, e1, e2, e3, e4, e5]
    refine ⟨ha, ?_, ?_⟩
    · simp only [CONFIG_ARM.bao_hypercall_remio, CONFIG_ARM.asm_bao_hypercall_remio, ha]
    · simp only [CONFIG_ARM.bao_hypercall_remio, CONFIG_ARM.asm_bao_hypercall_remio,
        bao_virtio_request.written, ha]
  · intro f1 f2 f3 f4 _ f6 hfit
    have ha : CONFIG_ARM.hvc_args fid r = CONFIG_ARM64.hvc_args fid r := by
      simp only [CONFIG_ARM.hvc_args, CONFIG_ARM64.hvc_args, to_u32, to_u64, HvcArgs.mk.injEq,
        true_and]
      refine ⟨?_, ?_, ?_, ?_, ?_⟩ <;> omega
    obtain ⟨_, o1, o2, o3, o4, o5, o6⟩ := hfit
    have hz : ∀ n : Nat, n < 2 ^ 32 → to_u64 (to_u32 n) = to_u64 n := by
      intro n hn
      unfold to_u64 to_u32
      omega
    have hfull : CONFIG_ARM.bao_hypercall_remio fid h r =
        CONFIG_ARM64.bao_hypercall_remio fid h r := by
      simp only [CONFIG_ARM.bao_hypercall_remio, CONFIG_ARM.asm_bao_hypercall_remio,
        CONFIG_ARM64.bao_hypercall_remio, CONFIG_ARM64.asm_bao_hypercall_remio, ha,
        hz _ o1, hz _ o2, hz _ o3, hz _ o4, hz _ o5, hz _ o6]
    exact ⟨by rw [hfull], by rw [hfull], hfull⟩

/-- Witness of C10: two requests that differ by `2 ^ 32` in `dm_id`, and a request and a
response that fit in 32 bits. -/
theorem arm_passes_fields_modulo_32_bits_witness :
    CONFIG_ARM.hvc_args 0xC6000002 ⟨1, 0x100, 0, 7, 4, 9⟩ =
        CONFIG_ARM.hvc_args 0xC6000002 ⟨2 ^ 32 + 1, 0x100, 0, 7, 4, 9⟩ ∧
      CONFIG_ARM.bao_hypercall_remio 0xC6000002 (fun _ => ⟨0, 0x100, 1, 0xabcd, 4, 9, 2⟩)
          ⟨1, 0x100, 0, 7, 4, 9⟩ =
        CONFIG_ARM64.bao_hypercall_remio 0xC6000002 (fun _ => ⟨0, 0x100, 1, 0xabcd, 4, 9, 2⟩)
          ⟨1, 0x100, 0, 7, 4, 9⟩ :=
  ⟨((arm_passes_fields_modulo_32_bits 0xC6000002 (fun _ => ⟨0, 0x100, 1, 0xabcd, 4, 9, 2⟩)
      ⟨1, 0x100, 0, 7, 4, 9⟩).2.1 ⟨2 ^ 32 + 1, 0x100, 0, 7, 4, 9⟩
      (by decide) (by decide) (by decide) (by decide) (by decide)).1,
    ((arm_passes_fields_modulo_32_bits 0xC6000002 (fun _ => ⟨0, 0x100, 1, 0xabcd, 4, 9, 2⟩)
      ⟨1, 0x100, 0, 7, 4, 9⟩).2.2.2 (by decide) (by decide) (by decide) (by decide)
      (by decide) (by decide) (by decide)).2.2⟩

/-! ## The doorbell flags -/

theorem flag_test_eq_testBit_one (x : Nat) :
    flag_test x BAO_IOEVENTFD_FLAG_DATAMATCH = x.testBit 1 := by
  have e : BAO_IOEVENTFD_FLAG_DATAMATCH = 2 ^ 1 := by decide
  unfold flag_test
  rw [e, Nat.and_two_pow]
  cases x.testBit 1 <;> simp

theorem flag_test_eq_testBit_two (x : Nat) :
    flag_test x BAO_IOEVENTFD_FLAG_DEASSIGN = x.testBit 2 := by
  have e : BAO_IOEVENTFD_FLAG_DEASSIGN = 2 ^ 2 := by decide
  unfold flag_test
  rw [e, Nat.and_two_pow]
  cases x.testBit 2 <;> simp

/-- C6: the doorbell flags word is a faithful logical-OR encoding of its two options: for all
booleans `m` and `d`, testing the word built from them with bitwise AND recovers `m` and `d`;
and for every flags word, setting or clearing one of the two flags leaves the test of the other
unchanged (and does set, respectively clear, the flag itself). -/
theorem ioeventfd_flags_independent :
    (∀ m d : Bool,
      flag_test (ioeventfd_flags m d) BAO_IOEVENTFD_FLAG_DATAMATCH = m ∧
        flag_test (ioeventfd_flags m d) BAO_IOEVENTFD_FLAG_DEASSIGN = d) ∧
    (∀ f : Nat,
      flag_test (flag_set f BAO_IOEVENTFD_FLAG_DATAMATCH) BAO_IOEVENTFD_FLAG_DEASSIGN =
          flag_test f BAO_IOEVENTFD_FLAG_DEASSIGN ∧
        flag_test (flag_clear f BAO_IOEVENTFD_FLAG_DATAMATCH) BAO_IOEVENTFD_FLAG_DEASSIGN =
          flag_test f BAO_IOEVENTFD_FLAG_DEASSIGN ∧
        flag_test (flag_set f BAO_IOEVENTFD_FLAG_DEASSIGN) BAO_IOEVENTFD_FLAG_DATAMATCH =
          flag_test f BAO_IOEVENTFD_FLAG_DATAMATCH ∧
        flag_test (flag_clear f BAO_IOEVENTFD_FLAG_DEASSIGN) BAO_IOEVENTFD_FLAG_DATAMATCH =
          flag_test f BAO_IOEVENTFD_FLAG_DATAMATCH) ∧
    (∀ f : Nat,
      flag_test (flag_set f BAO_IOEVENTFD_FLAG_DATAMATCH) BAO_IOEVENTFD_FLAG_DATAMATCH = true ∧
        flag_test (flag_clear f BAO_IOEVENTFD_FLAG_DATAMATCH) BAO_IOEVENTFD_FLAG_DATAMATCH =
          false ∧
        flag_test (flag_set f BAO_IOEVENTFD_FLAG_DEASSIGN) BAO_IOEVENTFD_FLAG_DEASSIGN = true ∧
        flag_test (flag_clear f BAO_IOEVENTFD_FLAG_DEASSIGN) BAO_IOEVENTFD_FLAG_DEASSIGN =
          false) := by
  have d1 : BAO_IOEVENTFD_FLAG_DATAMATCH = 2 := by decide
  have d2 : BAO_IOEVENTFD_FLAG_DEASSIGN = 4 := by decide
  have m1 : (2 ^ 32 - 1 - 2 : Nat) = 4294967293 := by decide
  have m2 : (2 ^ 32 - 1 - 4 : Nat) = 4294967291 := by decide
  have t21 : Nat.testBit 2 1 = true := by decide
  have t22 : Nat.testBit 2 2 = false := by decide
  have t41 : Nat.testBit 4 1 = false := by decide
  have t42 : Nat.testBit 4 2 = true := by decide
  have c11 : Nat.testBit 4294967293 1 = false := by decide
  have c12 : Nat.testBit 4294967293 2 = true := by decide
  have c21 : Nat.testBit 4294967291 1 = true := by decide
  have c22 : Nat.testBit 4294967291 2 = false := by decide
  refine ⟨?_, ?_, ?_⟩
  · intro m d
    cases m <;> cases d <;> decide
  · intro f
    simp only [flag_test_eq_testBit_one, flag_test_eq_testBit_two]
    simp only [flag_set, flag_clear, to_u32, d1, d2, Nat.testBit_mod_two_pow,
      Nat.testBit_or, Nat.testBit_and, m1, m2, t21, t22, t41, t42, c11, c12, c21, c22]
    simp
  · intro f
    simp only [flag_test_eq_testBit_one, flag_test_eq_testBit_two]
    simp only [flag_set, flag_clear, to_u32, d1, d2, Nat.testBit_mod_two_pow,
      Nat.testBit_or, Nat.testBit_and, m1, m2, t21, t22, t41, t42, c11, c12, c21, c22]
    simp

/-! ## The FIFO law of the request list -/

theorem push_all_requests (client : bao_io_client) (reqs : List bao_virtio_request) :
    (push_all client reqs).virtio_requests = client.virtio_requests ++ reqs := by
  induction reqs generalizing client with
  | nil => simp [push_all]
  | cons r rs ih =>
    have step : push_all client (r :: rs) =
        push_all (bao_io_client_push_request client r) rs := rfl
    rw [step, ih]
    simp [bao_io_client_push_request]

theorem pop_times_drains (q : List bao_virtio_request) (client : bao_io_client)
    (req : bao_virtio_request) (hq : client.virtio_requests = q) :
    (pop_times q.length client req).1 = q.map (fun r => (true, r)) ∧
      (pop_times q.length client req).2.1.virtio_requests = [] := by
  induction q generalizing client req with
  | nil => simp [pop_times, hq]
  | cons r rs ih =>
    have hp : bao_io_client_pop_request client req =
        (true, { client with virtio_requests := rs }, r) := by
      simp [bao_io_client_pop_request, hq]
    have step := ih { client with virtio_requests := rs } r rfl
    simp only [List.length_cons, pop_times, hp, List.map_cons]
    exact ⟨by rw [step.1], step.2⟩

/-- C7: FIFO law of an I/O client's request queue. After any sequence of requests is pushed
with `bao_io_client_push_request`, successive `bao_io_client_pop_request` calls each return
`true` and deliver the queued requests oldest first, those pushed in exactly the order of the
pushes; the pop that follows, on the empty queue, returns `false`, delivers no request and
leaves the client as it is. -/
theorem io_client_requests_fifo (client : bao_io_client) (reqs : List bao_virtio_request)
    (req : bao_virtio_request) :
    (pop_times (client.virtio_requests.length + reqs.length) (push_all client reqs) req).1 =
        (client.virtio_requests ++ reqs).map (fun r => (true, r)) ∧
      bao_io_client_pop_request
          (pop_times (client.virtio_requests.length + reqs.length)
            (push_all client reqs) req).2.1
          (pop_times (client.virtio_requests.length + reqs.length)
            (push_all client reqs) req).2.2 =
        (false,
          (pop_times (client.virtio_requests.length + reqs.length)
            (push_all client reqs) req).2.1,
          (pop_times (client.virtio_requests.length + reqs.length)
            (push_all client reqs) req).2.2) ∧
      (∀ other : bao_virtio_request,
        bao_io_client_pop_request { client with virtio_requests := [] } other =
          (false, { client with virtio_requests := [] }, other)) := by
  have hd := pop_times_drains (client.virtio_requests ++ reqs) (push_all client reqs) req
    (push_all_requests client reqs)
  rw [List.length_append] at hd
  refine ⟨hd.1, ?_, ?_⟩
  · simp [bao_io_client_pop_request, hd.2]
  · intro other
    rfl

end Bao
